import Mathlib

/- Shallow embedding of the Vulkan bootstrap core of the cinder repository
   (src/vulkan.rs, together with the earlier variant kept in src/main.rs).

   Driver calls are modeled by explicit result oracles (an Option VkError where
   none means the call succeeded, or an Except VkError result for queries), and
   Vulkan handles are modeled either as opaque numbers or as the create-info
   records that configured them.  Machine integers (u32 counts and indices) are
   modeled as Nat: none of the verified code paths can overflow them, since the
   values involved are list lengths and small constants. -/

namespace Cinder

/- ## Basic value types mirroring ash::vk -/

/-- A non-success vk::Result code returned by a driver call. -/
structure VkError where
  code : Int
deriving DecidableEq, Repr

/-- vk::PhysicalDevice: an opaque handle borrowed from the platform enumeration. -/
abbrev PhysicalDevice := Nat

structure Extent2D where
  width : Nat
  height : Nat
deriving DecidableEq, Repr

structure Offset2D where
  x : Int
  y : Int
deriving DecidableEq, Repr

structure Rect2D where
  offset : Offset2D
  extent : Extent2D
deriving DecidableEq, Repr

inductive Format
  | undefinedFormat
  | b8g8r8a8Unorm
  | r8g8b8a8Srgb
deriving DecidableEq, Repr

inductive ColorSpace
  | srgbNonlinear
  | displayP3
deriving DecidableEq, Repr

inductive PresentMode
  | immediate
  | mailbox
  | fifo
  | fifoRelaxed
deriving DecidableEq, Repr

structure SurfaceFormatKHR where
  format : Format
  color_space : ColorSpace
deriving DecidableEq, Repr

inductive SurfaceTransform
  | identityTransform
  | rotate90
deriving DecidableEq, Repr

/-- The slice of vk::SurfaceCapabilitiesKHR that src/vulkan.rs reads.
    max_image_count is a u32 where, per the Vulkan specification, 0 means the
    surface imposes no upper bound on the number of swap-chain images. -/
structure SurfaceCapabilitiesKHR where
  min_image_count : Nat
  max_image_count : Nat
  current_extent : Extent2D
  current_transform : SurfaceTransform
deriving DecidableEq, Repr

inductive SharingMode
  | exclusive
  | concurrent
deriving DecidableEq, Repr

inductive CompositeAlpha
  | opaqueAlpha
  | preMultiplied
deriving DecidableEq, Repr

/-- Outcome of running a fallible Rust function that can also panic
    (Result plus the possibility of a panic, e.g. from an out-of-bounds index
    or an .expect call). -/
inductive Outcome (ε α : Type)
  | ok (a : α)
  | err (e : ε)
  | panicked
deriving DecidableEq, Repr

def Outcome.isErr {ε α : Type} : Outcome ε α → Bool
  | .err _ => true
  | _ => false

/- ## Queue-family selection (src/vulkan.rs lines 245-299, src/main.rs lines 127-167) -/

/-- One entry of get_physical_device_queue_family_properties, paired with the
    (successful) result of the per-index get_physical_device_surface_support
    query that src/vulkan.rs performs for the same index. -/
structure QueueFamilyProperty where
  queue_count : Nat
  graphics_flag : Bool
  transfer_flag : Bool
  surface_support : Bool
deriving DecidableEq, Repr

structure QueueFamilyIndices where
  graphics : Nat
  transfer : Nat
deriving DecidableEq, Repr

/-- The anyhow-level errors produced by the bootstrap functions, one constructor
    per distinct error message or propagated vk::Result. -/
inductive AppError
  | noGraphicsFamily
  | noTransferFamily
  | noSurfacePresentMode
  | surfaceFormatsQueryFailed (e : VkError)
  | noSurfaceFormat
  | vkFailure (e : VkError)
deriving DecidableEq, Repr

/-- The condition pushed into found_graphics_queue_family_indices in
    src/vulkan.rs: queue_count > 0 AND flags contain GRAPHICS AND surface support. -/
def graphicsEligible (p : QueueFamilyProperty) : Bool :=
  decide (0 < p.queue_count) && p.graphics_flag && p.surface_support

/-- The condition pushed into found_transfer_queue_family_indices in
    src/vulkan.rs: queue_count > 0 AND flags contain TRANSFER. -/
def transferEligible (p : QueueFamilyProperty) : Bool :=
  decide (0 < p.queue_count) && p.transfer_flag

/-- The graphics condition of the src/main.rs variant, which does not consult
    surface support. -/
def mainGraphicsEligible (p : QueueFamilyProperty) : Bool :=
  decide (0 < p.queue_count) && p.graphics_flag

/-- The enumerate-and-push loop of get_queue_family_indices: collect, in
    ascending order starting at index i, the indices of the entries satisfying
    pred.  (The source fills both index vectors in one pass; running the same
    loop once per predicate collects identical vectors.) -/
def pushEligibleIndices (pred : QueueFamilyProperty → Bool) :
    Nat → List QueueFamilyProperty → List Nat
  | _, [] => []
  | i, p :: rest =>
    if pred p then i :: pushEligibleIndices pred (i + 1) rest
    else pushEligibleIndices pred (i + 1) rest

/-- get_queue_family_indices from src/vulkan.rs: push eligible indices, then
    take the first of each vector, failing with the corresponding anyhow error
    when a vector is empty.  The .find(|index| *index != graphics) distinctness
    filter of the tutorial is commented out in this source: transfer is the
    plain first eligible index. -/
def get_queue_family_indices (props : List QueueFamilyProperty) :
    Except AppError QueueFamilyIndices :=
  let found_graphics_queue_family_indices := pushEligibleIndices graphicsEligible 0 props
  let found_transfer_queue_family_indices := pushEligibleIndices transferEligible 0 props
  match found_graphics_queue_family_indices.head? with
  | none => .error .noGraphicsFamily
  | some graphics_queue_family_index =>
    match found_transfer_queue_family_indices.head? with
    | none => .error .noTransferFamily
    | some transfer_queue_family_index =>
      .ok { graphics := graphics_queue_family_index,
            transfer := transfer_queue_family_index }

/-- The earlier get_queue_family_indices variant of src/main.rs: no surface
    support in the graphics condition, and the transfer index is the first
    eligible index different from the graphics index. -/
def main_get_queue_family_indices (props : List QueueFamilyProperty) :
    Except AppError QueueFamilyIndices :=
  let found_graphics_queue_family_indices := pushEligibleIndices mainGraphicsEligible 0 props
  let found_transfer_queue_family_indices := pushEligibleIndices transferEligible 0 props
  match found_graphics_queue_family_indices.head? with
  | none => .error .noGraphicsFamily
  | some graphics_queue_family_index =>
    match found_transfer_queue_family_indices.find?
        (fun index => !(decide (index = graphics_queue_family_index))) with
    | none => .error .noTransferFamily
    | some transfer_queue_family_index =>
      .ok { graphics := graphics_queue_family_index,
            transfer := transfer_queue_family_index }

/-- First index (0-based) of a list entry satisfying pred, if any: the
    specification-side reading of "the first index satisfying the predicate". -/
def firstIdxSatisfying {α : Type} (pred : α → Bool) : List α → Option Nat
  | [] => none
  | a :: l => if pred a then some 0 else (firstIdxSatisfying pred l).map (· + 1)

/- ## Physical-device selection (src/vulkan.rs lines 238-243, src/main.rs lines 115-120) -/

/-- create_physical_device: enumerate_physical_devices propagates driver errors
    through the Result, then phys_devs[0] is taken by Rust indexing, which
    panics when the enumeration is empty. -/
def create_physical_device (phys_devs_result : Except VkError (List PhysicalDevice)) :
    Outcome VkError PhysicalDevice :=
  match phys_devs_result with
  | .error e => .err e
  | .ok phys_devs =>
    match phys_devs.head? with
    | some physical_device => .ok physical_device
    | none => .panicked

/- ## Swap-chain negotiation and image views (src/vulkan.rs lines 371-446) -/

/-- get_surface_format: a failing formats query is remapped to the
    "No surface formats found: .." error; an empty reported list produces the
    "No surface format found" error; otherwise the first pair is returned. -/
def get_surface_format (surface_formats_result : Except VkError (List SurfaceFormatKHR)) :
    Except AppError SurfaceFormatKHR :=
  match surface_formats_result with
  | .error e => .error (.surfaceFormatsQueryFailed e)
  | .ok surface_formats =>
    match surface_formats.head? with
    | some surface_format => .ok surface_format
    | none => .error .noSurfaceFormat

/-- The fields of vk::SwapchainCreateInfoKHR that src/vulkan.rs sets. -/
structure SwapchainCreateInfoKHR where
  surface : Nat
  min_image_count : Nat
  present_mode : PresentMode
  image_format : Format
  image_color_space : ColorSpace
  image_extent : Extent2D
  image_array_layers : Nat
  image_usage_color_attachment : Bool
  image_sharing_mode : SharingMode
  queue_family_indices : List Nat
  pre_transform : SurfaceTransform
  composite_alpha : CompositeAlpha
deriving DecidableEq, Repr

/-- vk::SwapchainCreateInfoKHR::default() for the modeled fields (all zeroed:
    every one of them is overwritten by the builder chain below). -/
def swapchainCreateInfoDefault : SwapchainCreateInfoKHR :=
  { surface := 0
    min_image_count := 0
    present_mode := .immediate
    image_format := .undefinedFormat
    image_color_space := .srgbNonlinear
    image_extent := { width := 0, height := 0 }
    image_array_layers := 0
    image_usage_color_attachment := false
    image_sharing_mode := .exclusive
    queue_family_indices := []
    pre_transform := .identityTransform
    composite_alpha := .opaqueAlpha }

/-- The builder chain of create_swapchain_and_image_views up to (and not
    including) the final .present_mode(vk::PresentModeKHR::FIFO) call: at this
    point present_mode still holds the negotiated first-reported mode, and
    min_image_count is 3.max(min_image_count).min(max_image_count). -/
def swapchainInfoPreOverride (surface : Nat) (surface_present_mode : PresentMode)
    (surface_format : SurfaceFormatKHR) (surface_capabilities : SurfaceCapabilitiesKHR)
    (extent : Extent2D) (queue_families : List Nat) : SwapchainCreateInfoKHR :=
  { swapchainCreateInfoDefault with
      surface := surface
      min_image_count :=
        Nat.min (Nat.max 3 surface_capabilities.min_image_count)
          surface_capabilities.max_image_count
      present_mode := surface_present_mode
      image_format := surface_format.format
      image_color_space := surface_format.color_space
      image_extent := extent
      image_array_layers := 1
      image_usage_color_attachment := true
      image_sharing_mode := .exclusive
      queue_family_indices := queue_families
      pre_transform := surface_capabilities.current_transform
      composite_alpha := .opaqueAlpha }

/-- The complete builder chain: the trailing .present_mode(FIFO) call overwrites
    the negotiated mode stored by the earlier .present_mode call. -/
def swapchainCreateInfo (surface : Nat) (surface_present_mode : PresentMode)
    (surface_format : SurfaceFormatKHR) (surface_capabilities : SurfaceCapabilitiesKHR)
    (extent : Extent2D) (queue_families : List Nat) : SwapchainCreateInfoKHR :=
  { swapchainInfoPreOverride surface surface_present_mode surface_format
      surface_capabilities extent queue_families with
      present_mode := PresentMode.fifo }

structure ImageSubresourceRange where
  aspect_color : Bool
  base_mip_level : Nat
  level_count : Nat
  base_array_layer : Nat
  layer_count : Nat
deriving DecidableEq, Repr

inductive ImageViewType
  | type1d
  | type2d
  | type3d
deriving DecidableEq, Repr

/-- The image-view create info that the loop builds for each swap-chain image. -/
structure ImageView where
  image : Nat
  view_type : ImageViewType
  format : Format
  subresource_range : ImageSubresourceRange
deriving DecidableEq, Repr

/-- The fixed per-image view configuration of create_swapchain_and_image_views:
    a 2-D B8G8R8A8_UNORM view with a color-aspect single-mip single-layer
    subresource range. -/
def mkSwapchainImageView (image : Nat) : ImageView :=
  { image := image
    view_type := .type2d
    format := .b8g8r8a8Unorm
    subresource_range :=
      { aspect_color := true
        base_mip_level := 0
        level_count := 1
        base_array_layer := 0
        layer_count := 1 } }

/-- Creation/destruction events on swap-chain image views, indexed by position
    in the swap-chain image list. -/
inductive ViewEvent
  | createdView (i : Nat)
  | destroyedView (i : Nat)
deriving DecidableEq, Repr

def ViewEvent.isDestroyedView : ViewEvent → Bool
  | .destroyedView _ => true
  | _ => false

/-- The image-view creation loop of create_swapchain_and_image_views, with the
    driver's per-call result supplied by image_view_result (indexed by loop
    position).  On a failing create_image_view the ? operator propagates the
    error immediately: the loop body contains no destruction of the views
    already pushed, so the event list of a failing run holds exactly the
    creations performed before the failure. -/
def createSwapchainImageViewsGo (image_view_result : Nat → Option VkError) :
    Nat → List Nat → Except VkError (List ImageView) × List ViewEvent
  | _, [] => (.ok [], [])
  | i, image :: rest =>
    match image_view_result i with
    | some e => (.error e, [])
    | none =>
      match createSwapchainImageViewsGo image_view_result (i + 1) rest with
      | (.ok views, evs) =>
        (.ok (mkSwapchainImageView image :: views), .createdView i :: evs)
      | (.error e, evs) => (.error e, .createdView i :: evs)

def createSwapchainImageViews (swapchain_images : List Nat)
    (image_view_result : Nat → Option VkError) :
    Except VkError (List ImageView) × List ViewEvent :=
  createSwapchainImageViewsGo image_view_result 0 swapchain_images

/-- The surface-related driver responses seen by create_swapchain_and_image_views,
    in the order the source queries them. -/
structure PhysicalSurfaceEnv where
  present_modes : List PresentMode
  formats_result : Except VkError (List SurfaceFormatKHR)
  capabilities : SurfaceCapabilitiesKHR
  swapchain_result : Option VkError
  images_result : Except VkError (List Nat)
  image_view_result : Nat → Option VkError

/-- What one run of create_swapchain_and_image_views did: its returned value,
    the create info actually passed to create_swapchain (when the run reached
    that call), and the image-view events it performed. -/
structure SwapchainCallRecord where
  result : Except AppError (SwapchainCreateInfoKHR × List ImageView)
  info_passed : Option SwapchainCreateInfoKHR
  view_events : List ViewEvent

/-- create_swapchain_and_image_views (src/vulkan.rs lines 387-446): query
    present modes and take the first (failing when none), get the surface
    format, read the capabilities, build the create info (with the trailing
    FIFO override), create the swap chain, fetch its images and create one
    view per image. -/
def create_swapchain_and_image_views (surface : Nat) (env : PhysicalSurfaceEnv)
    (queue_family_indices : QueueFamilyIndices) (extent : Extent2D) :
    SwapchainCallRecord :=
  match env.present_modes.head? with
  | none => { result := .error .noSurfacePresentMode, info_passed := none, view_events := [] }
  | some surface_present_mode =>
    match get_surface_format env.formats_result with
    | .error e => { result := .error e, info_passed := none, view_events := [] }
    | .ok surface_format =>
      let queue_families := [queue_family_indices.graphics]
      let info := swapchainCreateInfo surface surface_present_mode surface_format
        env.capabilities extent queue_families
      match env.swapchain_result with
      | some e => { result := .error (.vkFailure e), info_passed := some info, view_events := [] }
      | none =>
        match env.images_result with
        | .error e => { result := .error (.vkFailure e), info_passed := some info, view_events := [] }
        | .ok swapchain_images =>
          match createSwapchainImageViews swapchain_images env.image_view_result with
          | (.ok views, evs) =>
            { result := .ok (info, views), info_passed := some info, view_events := evs }
          | (.error e, evs) =>
            { result := .error (.vkFailure e), info_passed := some info, view_events := evs }

/-- A per-position view-creation oracle on which the 2nd create_image_view call
    (position 1) fails and every other call succeeds. -/
def failAtSecondView : Nat → Option VkError :=
  fun i => if i = 1 then some { code := -4 } else none

/-- A driver oracle on which every per-position call succeeds. -/
def allCallsSucceed : Nat → Option VkError := fun _ => none

/- ## Framebuffers (src/vulkan.rs lines 502-522) -/

/-- The fields of vk::FramebufferCreateInfo that create_framebuffers sets; the
    created framebuffer is modeled by this record. -/
structure FramebufferCreateInfo where
  render_pass : Nat
  attachments : List ImageView
  width : Nat
  height : Nat
  layers : Nat
deriving DecidableEq, Repr

/-- The per-view framebuffer info of the loop body: one attachment (the view),
    the negotiated extent, one layer. -/
def mkFramebufferInfo (render_pass : Nat) (extent : Extent2D) (image_view : ImageView) :
    FramebufferCreateInfo :=
  { render_pass := render_pass
    attachments := [image_view]
    width := extent.width
    height := extent.height
    layers := 1 }

/-- The create_framebuffers loop with the driver result of each
    create_framebuffer call supplied by framebuffer_result (indexed by loop
    position); the ? operator propagates the first failure. -/
def create_framebuffersGo (render_pass : Nat) (extent : Extent2D)
    (framebuffer_result : Nat → Option VkError) :
    Nat → List ImageView → Except VkError (List FramebufferCreateInfo)
  | _, [] => .ok []
  | i, image_view :: rest =>
    match framebuffer_result i with
    | some e => .error e
    | none =>
      match create_framebuffersGo render_pass extent framebuffer_result (i + 1) rest with
      | .ok framebuffers => .ok (mkFramebufferInfo render_pass extent image_view :: framebuffers)
      | .error e => .error e

def create_framebuffers (render_pass : Nat) (extent : Extent2D)
    (framebuffer_result : Nat → Option VkError) (image_views : List ImageView) :
    Except VkError (List FramebufferCreateInfo) :=
  create_framebuffersGo render_pass extent framebuffer_result 0 image_views

/- ## Command pools, command buffers and recording (src/vulkan.rs lines 633-708) -/

structure CommandPoolCreateInfo where
  queue_family_index : Nat
  reset_command_buffer_flag : Bool
deriving DecidableEq, Repr

structure CommandPoolsInfo where
  command_pool_graphics : CommandPoolCreateInfo
  command_pool_transfer : CommandPoolCreateInfo
deriving DecidableEq, Repr

/-- create_command_pools: one pool per selected family, both with the
    RESET_COMMAND_BUFFER flag.  (The two driver create calls are modeled as
    succeeding; their failure only propagates an error and creates nothing.) -/
def create_command_pools (queue_family_indices : QueueFamilyIndices) : CommandPoolsInfo :=
  { command_pool_graphics :=
      { queue_family_index := queue_family_indices.graphics
        reset_command_buffer_flag := true }
    command_pool_transfer :=
      { queue_family_index := queue_family_indices.transfer
        reset_command_buffer_flag := true } }

inductive CommandBufferLevel
  | primary
  | secondary
deriving DecidableEq, Repr

structure CommandBufferAllocateInfo where
  command_pool : CommandPoolCreateInfo
  level : CommandBufferLevel
  command_buffer_count : Nat
deriving DecidableEq, Repr

/-- create_commandbuffers: one allocation of `amount` buffers from the graphics
    pool; the level field is left at the ash default, PRIMARY.  The driver
    returns `amount` fresh buffer handles, modeled as 0..amount-1. -/
def create_commandbuffers (pools : CommandPoolsInfo) (amount : Nat) :
    CommandBufferAllocateInfo × List Nat :=
  ({ command_pool := pools.command_pool_graphics
     level := .primary
     command_buffer_count := amount },
   List.range amount)

/-- The clear value recorded by fill_commandbuffers:
    float32: [0.0, 0.0, 0.08, 1.0], with the source literals read as rationals. -/
def fixedClearColor : List Rat := [0, 0, 8 / 100, 1]

/-- The recording calls fill_commandbuffers issues, tagged with the command
    buffer they target. -/
inductive CmdEvent
  | beginCommandBuffer (cb : Nat)
  | cmdBeginRenderPass (cb : Nat) (render_pass : Nat) (framebuffer : FramebufferCreateInfo)
      (render_area : Rect2D) (clear_values : List (List Rat))
  | cmdBindPipelineGraphics (cb : Nat) (pipeline : Nat)
  | cmdDraw (cb : Nat) (vertex_count instance_count first_vertex first_instance : Nat)
  | cmdEndRenderPass (cb : Nat)
  | endCommandBuffer (cb : Nat)
deriving DecidableEq, Repr

/-- The calls recorded into one command buffer before end_command_buffer:
    begin, begin the render pass on fb over the full extent with the fixed
    clear color, bind the graphics pipeline, one draw of 1 vertex and
    1 instance at zero offsets, end the render pass. -/
def recordedBeforeEnd (cb render_pass : Nat) (fb : FramebufferCreateInfo)
    (extent : Extent2D) (pipeline : Nat) : List CmdEvent :=
  [ .beginCommandBuffer cb,
    .cmdBeginRenderPass cb render_pass fb
      { offset := { x := 0, y := 0 }, extent := extent } [fixedClearColor],
    .cmdBindPipelineGraphics cb pipeline,
    .cmdDraw cb 1 1 0 0,
    .cmdEndRenderPass cb ]

/-- The complete call sequence recorded into one command buffer. -/
def commandBlock (cb render_pass : Nat) (fb : FramebufferCreateInfo)
    (extent : Extent2D) (pipeline : Nat) : List CmdEvent :=
  recordedBeforeEnd cb render_pass fb extent pipeline ++ [.endCommandBuffer cb]

/-- The fill_commandbuffers loop over the enumerated command buffers.
    begin_command_buffer and end_command_buffer are fallible (their results
    come from the two oracles, indexed by loop position); framebuffers[i] is
    Rust indexing and panics when i is out of range. -/
def fill_commandbuffersGo (render_pass : Nat) (framebuffers : List FramebufferCreateInfo)
    (extent : Extent2D) (pipeline : Nat) (begin_result end_result : Nat → Option VkError) :
    Nat → List Nat → Outcome VkError Unit × List CmdEvent
  | _, [] => (.ok (), [])
  | i, cb :: rest =>
    match begin_result i with
    | some e => (.err e, [])
    | none =>
      match framebuffers[i]? with
      | none => (.panicked, [.beginCommandBuffer cb])
      | some fb =>
        match end_result i with
        | some e => (.err e, recordedBeforeEnd cb render_pass fb extent pipeline)
        | none =>
          match fill_commandbuffersGo render_pass framebuffers extent pipeline
              begin_result end_result (i + 1) rest with
          | (out, evs) => (out, commandBlock cb render_pass fb extent pipeline ++ evs)

def fill_commandbuffers (commandbuffers : List Nat) (render_pass : Nat)
    (framebuffers : List FramebufferCreateInfo) (extent : Extent2D) (pipeline : Nat)
    (begin_result end_result : Nat → Option VkError) :
    Outcome VkError Unit × List CmdEvent :=
  fill_commandbuffersGo render_pass framebuffers extent pipeline
    begin_result end_result 0 commandbuffers

/- ## Bootstrap sequence and teardown (Vulkan::new lines 63-151, Drop lines 711-740) -/

/-- The resources Vulkan::new creates and Drop for Vulkan destroys, at the
    granularity of the struct fields (the framebuffer and image-view vectors
    are each one entry: their elements are created and destroyed together). -/
inductive Res
  | inst
  | debugMessenger
  | surface
  | device
  | swapchain
  | imageViews
  | renderPass
  | vertShaderModule
  | fragShaderModule
  | pipelineLayout
  | pipeline
  | framebuffers
  | commandPools
  | commandBuffers
deriving DecidableEq, Repr

inductive Event
  | createRes (r : Res)
  | destroyRes (r : Res)
deriving DecidableEq, Repr

def Event.isCreateEvent : Event → Bool
  | .createRes _ => true
  | .destroyRes _ => false

/-- The fallible steps of Vulkan::new, in source order.  The four steps inside
    create_shaders_and_pipeline are listed individually since they fail at
    distinct points; create_swapchain_and_image_views is one step here (its
    internal partial-failure behavior is modeled by createSwapchainImageViews
    above). -/
inductive Step
  | createInstance
  | createDebugUtilsMessenger
  | createSurface
  | pickPhysicalDevice
  | getSurfaceExtent
  | getQueueFamilyIndices
  | createLogicalDevice
  | createSwapchainAndImageViews
  | createRenderPass
  | createVertexShaderModule
  | createFragmentShaderModule
  | createPipelineLayout
  | createGraphicsPipeline
  | createFramebuffers
  | createCommandPools
  | allocateCommandBuffers
  | fillCommandBuffers
deriving DecidableEq, Repr

/-- The resources a successful step leaves created. -/
def stepCreates : Step → List Res
  | .createInstance => [.inst]
  | .createDebugUtilsMessenger => [.debugMessenger]
  | .createSurface => [.surface]
  | .pickPhysicalDevice => []
  | .getSurfaceExtent => []
  | .getQueueFamilyIndices => []
  | .createLogicalDevice => [.device]
  | .createSwapchainAndImageViews => [.swapchain, .imageViews]
  | .createRenderPass => [.renderPass]
  | .createVertexShaderModule => [.vertShaderModule]
  | .createFragmentShaderModule => [.fragShaderModule]
  | .createPipelineLayout => [.pipelineLayout]
  | .createGraphicsPipeline => [.pipeline]
  | .createFramebuffers => [.framebuffers]
  | .createCommandPools => [.commandPools]
  | .allocateCommandBuffers => [.commandBuffers]
  | .fillCommandBuffers => []

/-- The step order of Vulkan::new. -/
def stepsInOrder : List Step :=
  [ .createInstance, .createDebugUtilsMessenger, .createSurface, .pickPhysicalDevice,
    .getSurfaceExtent, .getQueueFamilyIndices, .createLogicalDevice,
    .createSwapchainAndImageViews, .createRenderPass, .createVertexShaderModule,
    .createFragmentShaderModule, .createPipelineLayout, .createGraphicsPipeline,
    .createFramebuffers, .createCommandPools, .allocateCommandBuffers, .fillCommandBuffers ]

inductive BootstrapOutcome
  | ok
  | failed (s : Step)
  | panickedAt (s : Step)
deriving DecidableEq, Repr

/-- Run the steps of Vulkan::new against a per-step success oracle.  Every
    fallible call is followed by the ? operator, so the first failing step
    returns its error immediately with no intervening cleanup; the pipeline
    step alone uses .expect and panics instead of returning an error. -/
def runBootstrapSteps (oracle : Step → Bool) :
    List Step → List Event → BootstrapOutcome × List Event
  | [], evs => (.ok, evs)
  | s :: rest, evs =>
    if oracle s then
      runBootstrapSteps oracle rest (evs ++ (stepCreates s).map Event.createRes)
    else if s = Step.createGraphicsPipeline then (.panickedAt s, evs)
    else (.failed s, evs)

/-- Vulkan::new as a whole: its outcome and the create/destroy events it issued. -/
def vulkanNew (oracle : Step → Bool) : BootstrapOutcome × List Event :=
  runBootstrapSteps oracle stepsInOrder []

/-- An oracle on which create_render_pass fails and every earlier step succeeds. -/
def failAtRenderPassOracle : Step → Bool :=
  fun s => !(decide (s = Step.createRenderPass))

/-- The creation order of the destroyed resources in Vulkan::new. -/
def constructionOrder : List Res :=
  [ .inst, .debugMessenger, .surface, .device, .swapchain, .imageViews, .renderPass,
    .vertShaderModule, .fragShaderModule, .pipelineLayout, .pipeline, .framebuffers,
    .commandPools ]

/-- The destroy-call order of Drop for Vulkan (src/vulkan.rs lines 711-740):
    command pools, framebuffers, image views, swap chain, surface, render pass,
    vertex module, fragment module, pipeline layout, pipeline, device,
    debug messenger, instance.  (Command buffers are never freed individually;
    destroying their pool releases them.) -/
def dropOrder : List Res :=
  [ .commandPools, .framebuffers, .imageViews, .swapchain, .surface, .renderPass,
    .vertShaderModule, .fragShaderModule, .pipelineLayout, .pipeline, .device,
    .debugMessenger, .inst ]

/-- Creation-time reference edges (dependency, dependent): the dependent is
    created from the dependency in Vulkan::new, so under the spec's ownership
    DAG the dependent must be destroyed first. -/
def dependencyEdges : List (Res × Res) :=
  [ (.inst, .debugMessenger), (.inst, .surface), (.inst, .device), (.inst, .swapchain),
    (.surface, .swapchain), (.device, .swapchain),
    (.swapchain, .imageViews), (.device, .imageViews),
    (.device, .renderPass),
    (.device, .vertShaderModule), (.device, .fragShaderModule),
    (.device, .pipelineLayout), (.device, .pipeline),
    (.renderPass, .pipeline), (.pipelineLayout, .pipeline),
    (.vertShaderModule, .pipeline), (.fragShaderModule, .pipeline),
    (.renderPass, .framebuffers), (.imageViews, .framebuffers), (.device, .framebuffers),
    (.device, .commandPools) ]

/-- The dependency edges that Drop for Vulkan violates: the pipeline outlives
    the render pass, the pipeline layout and both shader modules it was
    created from. -/
def violatedDependencyEdges : List (Res × Res) :=
  [ (.renderPass, .pipeline), (.pipelineLayout, .pipeline),
    (.vertShaderModule, .pipeline), (.fragShaderModule, .pipeline) ]

/-- Position of a resource in a destroy order. -/
def idxIn (order : List Res) (r : Res) : Option Nat :=
  firstIdxSatisfying (fun x => decide (x = r)) order

/-- a is destroyed strictly before b in the given order. -/
def destroyedStrictlyBefore (order : List Res) (a b : Res) : Bool :=
  match idxIn order a, idxIn order b with
  | some i, some j => decide (i < j)
  | _, _ => false

/-- Every listed dependent is destroyed strictly before its dependency. -/
def respectsDependencyOrder (order : List Res) (edges : List (Res × Res)) : Bool :=
  edges.all (fun e => destroyedStrictlyBefore order e.2 e.1)

/- ## Concrete fixtures used for witnesses and counterexamples -/

def ext640 : Extent2D := { width := 640, height := 480 }

def exampleCaps : SurfaceCapabilitiesKHR :=
  { min_image_count := 1
    max_image_count := 3
    current_extent := ext640
    current_transform := .identityTransform }

def capsMin1Max1 : SurfaceCapabilitiesKHR :=
  { exampleCaps with min_image_count := 1, max_image_count := 1 }

def capsMin4Max8 : SurfaceCapabilitiesKHR :=
  { exampleCaps with min_image_count := 4, max_image_count := 8 }

/-- min_image_count 1 with an unbounded hardware maximum (max_image_count 0). -/
def capsMin1Unbounded : SurfaceCapabilitiesKHR :=
  { exampleCaps with min_image_count := 1, max_image_count := 0 }

def bgraSrgbFormat : SurfaceFormatKHR :=
  { format := .b8g8r8a8Unorm, color_space := .srgbNonlinear }

def rgbaP3Format : SurfaceFormatKHR :=
  { format := .r8g8b8a8Srgb, color_space := .displayP3 }

def qfiZero : QueueFamilyIndices := { graphics := 0, transfer := 0 }

/-- A healthy surface whose first reported present mode is MAILBOX. -/
def mailboxEnv : PhysicalSurfaceEnv :=
  { present_modes := [.mailbox]
    formats_result := .ok [bgraSrgbFormat]
    capabilities := exampleCaps
    swapchain_result := none
    images_result := .ok [0, 1, 2]
    image_view_result := allCallsSucceed }

/-- A surface reporting an empty present-mode list and an empty format list. -/
def emptyModesAndFormatsEnv : PhysicalSurfaceEnv :=
  { present_modes := []
    formats_result := .ok []
    capabilities := exampleCaps
    swapchain_result := none
    images_result := .ok []
    image_view_result := allCallsSucceed }

/-- A surface reporting present mode FIFO but an empty format list. -/
def emptyFormatsEnv : PhysicalSurfaceEnv :=
  { present_modes := [.fifo]
    formats_result := .ok []
    capabilities := exampleCaps
    swapchain_result := none
    images_result := .ok []
    image_view_result := allCallsSucceed }

/-- A healthy surface reporting the R8G8B8A8_SRGB/DISPLAY_P3 pair first. -/
def p3Env : PhysicalSurfaceEnv :=
  { present_modes := [.mailbox]
    formats_result := .ok [rgbaP3Format]
    capabilities := exampleCaps
    swapchain_result := none
    images_result := .ok [0, 1]
    image_view_result := allCallsSucceed }

/-- Two concrete framebuffers over render pass 7 and the 640x480 extent. -/
def witnessFramebuffers : List FramebufferCreateInfo :=
  [ mkFramebufferInfo 7 ext640 (mkSwapchainImageView 0),
    mkFramebufferInfo 7 ext640 (mkSwapchainImageView 1) ]

end Cinder

/- ## Theorems -/

namespace Cinder

/-- The head of the pushed index list is the first index satisfying the
    predicate, shifted by the starting index. -/
theorem pushEligibleIndices_head_eq (pred : QueueFamilyProperty → Bool) :
    ∀ (props : List QueueFamilyProperty) (i : Nat),
      (pushEligibleIndices pred i props).head? =
        (firstIdxSatisfying pred props).map (· + i) := by
  intro props
  induction props with
  | nil => intro i; rfl
  | cons p rest ih =>
    intro i
    cases hp : pred p with
    | true => simp [pushEligibleIndices, firstIdxSatisfying, hp]
    | false =>
      simp only [pushEligibleIndices, firstIdxSatisfying, hp, Bool.false_eq_true,
        if_false, ih (i + 1), Option.map_map]
      cases firstIdxSatisfying pred rest with
      | none => rfl
      | some a => simp [Function.comp]; omega

/-- C1: for every enumerated queue-family list, get_queue_family_indices returns
    the first index satisfying the graphics condition (queue_count > 0, GRAPHICS
    flag, surface support) together with, independently, the first index
    satisfying the transfer condition (queue_count > 0, TRANSFER flag) — the two
    indices are not required to differ — and fails with the no-graphics-family
    or no-transfer-family error when no family satisfies the respective
    condition. -/
theorem queue_family_selection_spec (props : List QueueFamilyProperty) :
    get_queue_family_indices props =
      match firstIdxSatisfying graphicsEligible props,
            firstIdxSatisfying transferEligible props with
      | none, _ => Except.error AppError.noGraphicsFamily
      | some _, none => Except.error AppError.noTransferFamily
      | some g, some t => Except.ok { graphics := g, transfer := t } := by
  simp only [get_queue_family_indices]
  rw [pushEligibleIndices_head_eq, pushEligibleIndices_head_eq]
  cases hg : firstIdxSatisfying graphicsEligible props <;>
    cases ht : firstIdxSatisfying transferEligible props <;> simp

/-- C10: physical-device selection returns the device at index 0 of a non-empty
    enumeration; an empty enumeration makes it panic on the out-of-bounds index
    phys_devs[0] — the error branch of the Result is never used for the
    empty-list case. -/
theorem physical_device_selection (phys_devs : List PhysicalDevice) :
    create_physical_device (.ok phys_devs) =
      (match phys_devs with
       | [] => Outcome.panicked
       | d :: _ => Outcome.ok d) ∧
    (create_physical_device (.ok phys_devs)).isErr = false := by
  cases phys_devs <;> exact ⟨rfl, rfl⟩

/-- The events of a bootstrap run are the creations performed by the longest
    prefix of steps the oracle lets succeed, appended to the incoming events. -/
theorem runBootstrapSteps_events (oracle : Step → Bool) :
    ∀ (steps : List Step) (evs : List Event),
      (runBootstrapSteps oracle steps evs).2 =
        evs ++ (steps.takeWhile oracle).flatMap
          (fun s => (stepCreates s).map Event.createRes) := by
  intro steps
  induction steps with
  | nil => intro evs; simp [runBootstrapSteps]
  | cons s rest ih =>
    intro evs
    cases ho : oracle s with
    | true =>
      simp [runBootstrapSteps, ho, ih, List.takeWhile, List.flatMap_cons,
        List.append_assoc]
    | false =>
      by_cases hs : s = Step.createGraphicsPipeline
      · subst hs
        simp [runBootstrapSteps, ho, List.takeWhile]
      · simp [runBootstrapSteps, ho, hs, List.takeWhile]

/-- The outcome of a bootstrap run is determined by the first step the oracle
    fails: ok when none fails, a panic for the pipeline step, an error for every
    other step. -/
theorem runBootstrapSteps_outcome (oracle : Step → Bool) :
    ∀ (steps : List Step) (evs : List Event),
      (runBootstrapSteps oracle steps evs).1 =
        match steps.find? (fun s => !oracle s) with
        | none => BootstrapOutcome.ok
        | some s =>
          if s = Step.createGraphicsPipeline then BootstrapOutcome.panickedAt s
          else BootstrapOutcome.failed s := by
  intro steps
  induction steps with
  | nil => intro evs; rfl
  | cons s rest ih =>
    intro evs
    cases ho : oracle s with
    | true => simp [runBootstrapSteps, ho, ih, List.find?]
    | false =>
      by_cases hs : s = Step.createGraphicsPipeline
      · subst hs
        simp [runBootstrapSteps, ho, List.find?]
      · simp [runBootstrapSteps, ho, hs, List.find?]

/-- Creation events only, whatever the step list. -/
theorem flatMap_createRes_all_create (l : List Step) :
    (l.flatMap (fun s => (stepCreates s).map Event.createRes)).all
      Event.isCreateEvent = true := by
  induction l with
  | nil => rfl
  | cons s rest ih =>
    simp [List.flatMap_cons, List.all_append, List.all_map, ih, Function.comp,
      Event.isCreateEvent]

/-- C2 (counterexample): on the run in which create_render_pass fails and every
    earlier step succeeds, Vulkan::new surfaces the error while its complete
    event trace holds the creations of the instance, debug messenger, surface,
    logical device, swap chain and image views and no destroy call at all —
    the objects already created are not destroyed before the error is returned. -/
theorem vulkanNew_failure_leaks_created_objects :
    vulkanNew failAtRenderPassOracle =
      (BootstrapOutcome.failed Step.createRenderPass,
       [Event.createRes Res.inst, Event.createRes Res.debugMessenger,
        Event.createRes Res.surface, Event.createRes Res.device,
        Event.createRes Res.swapchain, Event.createRes Res.imageViews]) ∧
    (vulkanNew failAtRenderPassOracle).2.all Event.isCreateEvent = true :=
  ⟨rfl, rfl⟩

/-- C2 (amended): construction is not all-or-nothing.  For every per-step
    outcome, the events of Vulkan::new are exactly the create calls of the
    steps that succeeded before the first failure (in construction order) and
    contain no destroy call whatsoever: when a bootstrap step fails, the error
    is surfaced to the caller with every previously created object left alive
    (leaked), and the run ends at the first failing step (a panic for the
    pipeline step, an error for every other). -/
theorem vulkanNew_no_unwind_on_error (oracle : Step → Bool) :
    (vulkanNew oracle).2 =
      (stepsInOrder.takeWhile oracle).flatMap
        (fun s => (stepCreates s).map Event.createRes) ∧
    (vulkanNew oracle).2.all Event.isCreateEvent = true ∧
    (vulkanNew oracle).1 =
      (match stepsInOrder.find? (fun s => !oracle s) with
       | none => BootstrapOutcome.ok
       | some s =>
         if s = Step.createGraphicsPipeline then BootstrapOutcome.panickedAt s
         else BootstrapOutcome.failed s) := by
  refine ⟨by simpa using runBootstrapSteps_events oracle stepsInOrder [], ?_,
    runBootstrapSteps_outcome oracle stepsInOrder []⟩
  have h := runBootstrapSteps_events oracle stepsInOrder []
  unfold vulkanNew
  rw [h]
  simpa using flatMap_createRes_all_create (stepsInOrder.takeWhile oracle)

/-- C3 (counterexample): the destroy order of Drop for Vulkan is not the exact
    reverse of the construction order, and it violates the
    dependents-destroyed-first rule for the creation-reference edges of the
    bootstrap (the pipeline is destroyed after the render pass, pipeline layout
    and shader modules it was created from). -/
theorem drop_order_not_exact_reverse :
    decide (dropOrder = constructionOrder.reverse) = false ∧
    respectsDependencyOrder dropOrder dependencyEdges = false := by
  exact ⟨by decide, by decide⟩

/-- C3 (amended): teardown issues destroys in the fixed order command pools,
    framebuffers, image views, swap chain, surface, render pass, vertex shader
    module, fragment shader module, pipeline layout, pipeline, logical device,
    debug messenger, instance.  This order respects every creation-reference
    edge except the four into the pipeline: the render pass, pipeline layout
    and both shader modules are destroyed before the pipeline created from
    them (it is not the exact reverse of construction). -/
theorem drop_order_characterization :
    dropOrder =
      [ Res.commandPools, Res.framebuffers, Res.imageViews, Res.swapchain, Res.surface,
        Res.renderPass, Res.vertShaderModule, Res.fragShaderModule, Res.pipelineLayout,
        Res.pipeline, Res.device, Res.debugMessenger, Res.inst ] ∧
    respectsDependencyOrder dropOrder
      (dependencyEdges.filter (fun e => !(decide (e ∈ violatedDependencyEdges)))) = true ∧
    respectsDependencyOrder dropOrder violatedDependencyEdges = false := by
  exact ⟨rfl, by decide, by decide⟩

end Cinder

namespace Cinder

/-- C4: the swap-chain image count the builder requests is
    3.max(min_image_count).min(max_image_count) with no special-casing of an
    unbounded (0) hardware maximum.  The bounded boundary cases of the spec
    hold (min=1,max=1 gives 1; min=4,max=8 gives 4), but min=1 with unbounded
    max (max_image_count = 0) makes the code request 0 images, not the 3 that
    the spec's clamp-with-unbounded-treated-as-no-limit rule demands. -/
theorem swapchain_image_count_eval :
    (swapchainCreateInfo 0 PresentMode.fifo bgraSrgbFormat capsMin1Max1
      ext640 [0]).min_image_count = 1 ∧
    (swapchainCreateInfo 0 PresentMode.fifo bgraSrgbFormat capsMin4Max8
      ext640 [0]).min_image_count = 4 ∧
    (swapchainCreateInfo 0 PresentMode.fifo bgraSrgbFormat capsMin1Unbounded
      ext640 [0]).min_image_count = 0 :=
  ⟨rfl, rfl, rfl⟩

/-- The create info passed to create_swapchain, when the run reaches that call,
    is the full builder chain applied to the first reported present mode, the
    selected surface format, the reported capabilities and the graphics-family
    singleton. -/
theorem info_passed_eq (surface : Nat) (env : PhysicalSurfaceEnv)
    (qfi : QueueFamilyIndices) (extent : Extent2D) :
    (create_swapchain_and_image_views surface env qfi extent).info_passed =
      match env.present_modes.head?, get_surface_format env.formats_result with
      | some m, .ok fmt =>
        some (swapchainCreateInfo surface m fmt env.capabilities extent [qfi.graphics])
      | _, _ => none := by
  unfold create_swapchain_and_image_views
  cases env.present_modes.head? with
  | none => rfl
  | some m =>
    cases get_surface_format env.formats_result with
    | error e => rfl
    | ok fmt =>
      cases env.swapchain_result with
      | some e => rfl
      | none =>
        cases env.images_result with
        | error e => rfl
        | ok imgs =>
          cases h : createSwapchainImageViews imgs env.image_view_result with
          | mk r evs => cases r <;> simp [h]

/-- C5: whenever create_swapchain receives a create info, that info's present
    mode is FIFO, and the info is the builder chain in which the negotiated
    first-reported present mode was first stored (the pre-override chain holds
    that mode) and then overridden by the trailing FIFO setter. -/
theorem present_mode_pinned_to_fifo (surface : Nat) (env : PhysicalSurfaceEnv)
    (qfi : QueueFamilyIndices) (extent : Extent2D) (info : SwapchainCreateInfoKHR)
    (h : (create_swapchain_and_image_views surface env qfi extent).info_passed = some info) :
    info.present_mode = PresentMode.fifo ∧
    ∃ m fmt, env.present_modes.head? = some m ∧
      get_surface_format env.formats_result = Except.ok fmt ∧
      info = swapchainCreateInfo surface m fmt env.capabilities extent [qfi.graphics] ∧
      (swapchainInfoPreOverride surface m fmt env.capabilities extent
        [qfi.graphics]).present_mode = m := by
  rw [info_passed_eq] at h
  cases hm : env.present_modes.head? with
  | none => rw [hm] at h; simp at h
  | some m =>
    rw [hm] at h
    cases hf : get_surface_format env.formats_result with
    | error e => rw [hf] at h; simp at h
    | ok fmt =>
      rw [hf] at h
      simp only [Option.some.injEq] at h
      subst h
      exact ⟨rfl, m, fmt, rfl, rfl, rfl, rfl⟩

/-- C5 (witness): on a surface whose first reported present mode is MAILBOX,
    the create info handed to create_swapchain carries present mode FIFO. -/
theorem present_mode_pinned_to_fifo_witness :
    (create_swapchain_and_image_views 0 mailboxEnv qfiZero ext640).info_passed
      = some (swapchainCreateInfo 0 PresentMode.mailbox bgraSrgbFormat
          exampleCaps ext640 [0]) ∧
    (swapchainCreateInfo 0 PresentMode.mailbox bgraSrgbFormat exampleCaps
      ext640 [0]).present_mode = PresentMode.fifo := by
  refine ⟨rfl, ?_⟩
  exact (present_mode_pinned_to_fifo 0 mailboxEnv qfiZero ext640 _ rfl).1

/-- C7 (counterexample): on a surface reporting an empty format list together
    with an empty present-mode list, create_swapchain_and_image_views fails
    with the no-surface-present-mode error — not the no-surface-format error
    the claim names for every empty-format-list surface (present modes are
    queried first in the source). -/
theorem empty_formats_error_shadowed_by_present_mode :
    (create_swapchain_and_image_views 0 emptyModesAndFormatsEnv qfiZero ext640).result
      = Except.error AppError.noSurfacePresentMode ∧
    decide (AppError.noSurfacePresentMode = AppError.noSurfaceFormat) = false :=
  ⟨rfl, rfl⟩

/-- C7 (amended): when the surface reports a non-empty present-mode list and an
    empty format list, swap-chain creation fails with the no-surface-format
    error and no create info is ever passed to create_swapchain (with an empty
    present-mode list the no-present-mode error is returned first instead);
    and whenever a swap chain is created, its format and color space are the
    first reported format/color-space pair. -/
theorem surface_format_selection (surface : Nat) (env : PhysicalSurfaceEnv)
    (qfi : QueueFamilyIndices) (extent : Extent2D) :
    (env.present_modes ≠ [] → env.formats_result = Except.ok [] →
      (create_swapchain_and_image_views surface env qfi extent).result =
        Except.error AppError.noSurfaceFormat ∧
      (create_swapchain_and_image_views surface env qfi extent).info_passed = none) ∧
    (∀ info fmts f,
      (create_swapchain_and_image_views surface env qfi extent).info_passed = some info →
      env.formats_result = Except.ok fmts → fmts.head? = some f →
      info.image_format = f.format ∧ info.image_color_space = f.color_space) := by
  constructor
  · intro hne hf
    cases hm : env.present_modes with
    | nil => exact absurd hm hne
    | cons m rest =>
      unfold create_swapchain_and_image_views
      rw [hm]
      simp [get_surface_format, hf]
  · intro info fmts f hinfo hf hhead
    rw [info_passed_eq] at hinfo
    cases hm : env.present_modes.head? with
    | none => rw [hm] at hinfo; simp at hinfo
    | some m =>
      rw [hm, hf] at hinfo
      simp only [get_surface_format, hhead] at hinfo
      simp only [Option.some.injEq] at hinfo
      subst hinfo
      exact ⟨rfl, rfl⟩

/-- C7 (witness): with modes [FIFO] and formats [], creation fails with the
    no-surface-format error and no create info is passed; and a created swap
    chain uses the first reported format/color-space pair. -/
theorem surface_format_selection_witness :
    ((create_swapchain_and_image_views 0 emptyFormatsEnv qfiZero ext640).result
        = Except.error AppError.noSurfaceFormat ∧
     (create_swapchain_and_image_views 0 emptyFormatsEnv qfiZero ext640).info_passed
        = none) ∧
    ((swapchainCreateInfo 0 PresentMode.mailbox rgbaP3Format exampleCaps
        ext640 [0]).image_format = Format.r8g8b8a8Srgb ∧
     (swapchainCreateInfo 0 PresentMode.mailbox rgbaP3Format exampleCaps
        ext640 [0]).image_color_space = ColorSpace.displayP3) := by
  constructor
  · exact (surface_format_selection 0 emptyFormatsEnv qfiZero ext640).1 (by simp [emptyFormatsEnv]) rfl
  · exact (surface_format_selection 0 p3Env qfiZero ext640).2 _ _ _ rfl rfl rfl

end Cinder

namespace Cinder

/-- A failing create_image_view at position i + k, after k successes from
    position i, leaves exactly the k earlier creations in the event list —
    no destroy event is issued before the error is returned. -/
theorem createSwapchainImageViewsGo_fail (res : Nat → Option VkError) (e : VkError) :
    ∀ (images : List Nat) (i k : Nat),
      (∀ j, j < k → res (i + j) = none) → res (i + k) = some e → k < images.length →
      createSwapchainImageViewsGo res i images =
        (Except.error e, (List.range k).map (fun j => ViewEvent.createdView (i + j))) := by
  intro images
  induction images with
  | nil => intro i k _ _ hk; simp at hk
  | cons img rest ih =>
    intro i k hok hfail hk
    cases k with
    | zero =>
      have h0 : res i = some e := by simpa using hfail
      simp [createSwapchainImageViewsGo, h0]
    | succ k =>
      have h0 : res i = none := by simpa using hok 0 (Nat.succ_pos k)
      have hok1 : ∀ j, j < k → res (i + 1 + j) = none := by
        intro j hj
        have h2 := hok (j + 1) (by omega)
        have h3 : i + (j + 1) = i + 1 + j := by omega
        rwa [h3] at h2
      have hfail1 : res (i + 1 + k) = some e := by
        have h3 : i + (k + 1) = i + 1 + k := by omega
        rwa [h3] at hfail
      have hk1 : k < rest.length := by simpa using hk
      have ihres := ih (i + 1) k hok1 hfail1 hk1
      have hmap : ((List.range k).map fun j => ViewEvent.createdView (i + 1 + j)) =
          ((List.range k).map fun j => ViewEvent.createdView (i + (j + 1))) := by
        apply List.map_congr_left
        intro a _
        have h4 : i + 1 + a = i + (a + 1) := by omega
        rw [h4]
      simp only [createSwapchainImageViewsGo, h0, ihres, hmap]
      rw [List.range_succ_eq_map]
      simp [List.map_map, Function.comp]

/-- C6 (counterexample): with four swap-chain images and the 2nd view creation
    failing, the loop returns the creation error while its complete event list
    is just the creation of view 0 — the already created view is not destroyed
    before the error propagates, so a created-but-unowned view handle remains
    on the failure path. -/
theorem image_view_partial_failure_counterexample :
    createSwapchainImageViews [10, 11, 12, 13] failAtSecondView =
      (Except.error { code := -4 }, [ViewEvent.createdView 0]) ∧
    ((createSwapchainImageViews [10, 11, 12, 13] failAtSecondView).2.any
        ViewEvent.isDestroyedView) = false :=
  ⟨rfl, rfl⟩

/-- C6 (amended): when the k-th view creation fails (after k-1 successes), the
    underlying error is propagated immediately and the k-1 views already
    created are not destroyed: the event list of the failing run is exactly
    their creations, with no destroy event. -/
theorem image_view_partial_failure_no_cleanup (images : List Nat)
    (image_view_result : Nat → Option VkError) (k : Nat) (e : VkError)
    (hok : ∀ j, j < k → image_view_result j = none)
    (hfail : image_view_result k = some e) (hk : k < images.length) :
    createSwapchainImageViews images image_view_result =
      (Except.error e, (List.range k).map ViewEvent.createdView) := by
  have h := createSwapchainImageViewsGo_fail image_view_result e images 0 k
    (by intro j hj; simpa using hok j hj) (by simpa using hfail) hk
  simpa [createSwapchainImageViews] using h

/-- C6 (witness): four images, failure at the 2nd view creation: the error is
    returned with exactly the creation of view 0 on record. -/
theorem image_view_partial_failure_no_cleanup_witness :
    createSwapchainImageViews [10, 11, 12, 13] failAtSecondView =
      (Except.error { code := -4 }, (List.range 1).map ViewEvent.createdView) := by
  exact image_view_partial_failure_no_cleanup [10, 11, 12, 13] failAtSecondView 1
    { code := -4 }
    (by intro j hj
        have hj0 : j = 0 := by omega
        subst hj0
        rfl)
    rfl (by decide)

/-- A successful create_framebuffers loop maps every image view to its
    one-attachment framebuffer info, independent of the starting index. -/
theorem create_framebuffersGo_ok (render_pass : Nat) (extent : Extent2D)
    (framebuffer_result : Nat → Option VkError) :
    ∀ (image_views : List ImageView) (i : Nat) (fbs : List FramebufferCreateInfo),
      create_framebuffersGo render_pass extent framebuffer_result i image_views
        = Except.ok fbs →
      fbs = image_views.map (mkFramebufferInfo render_pass extent) := by
  intro views
  induction views with
  | nil =>
    intro i fbs h
    simp only [create_framebuffersGo, Except.ok.injEq] at h
    simp [h.symm]
  | cons v rest ih =>
    intro i fbs h
    simp only [create_framebuffersGo] at h
    cases hr : framebuffer_result i with
    | some e => simp [hr] at h
    | none =>
      simp only [hr] at h
      cases hrec : create_framebuffersGo render_pass extent framebuffer_result (i + 1) rest with
      | ok fbs2 =>
        simp only [hrec, Except.ok.injEq] at h
        subst h
        simp [ih (i + 1) fbs2 hrec]
      | error e2 => simp [hrec] at h

/-- C8: every successful framebuffer construction returns exactly one
    framebuffer per image view, in the same order (the i-th framebuffer binds
    the i-th view as its sole attachment), and every framebuffer's declared
    width and height equal the negotiated extent with 1 layer. -/
theorem framebuffers_one_per_view (render_pass : Nat) (extent : Extent2D)
    (framebuffer_result : Nat → Option VkError) (image_views : List ImageView)
    (fbs : List FramebufferCreateInfo)
    (h : create_framebuffers render_pass extent framebuffer_result image_views
      = Except.ok fbs) :
    fbs = image_views.map (mkFramebufferInfo render_pass extent) ∧
    fbs.length = image_views.length ∧
    (∀ i (h1 : i < fbs.length) (h2 : i < image_views.length),
      fbs[i] = mkFramebufferInfo render_pass extent image_views[i]) ∧
    (∀ fb ∈ fbs, fb.render_pass = render_pass ∧ fb.width = extent.width ∧
      fb.height = extent.height ∧ fb.layers = 1) := by
  have hmap := create_framebuffersGo_ok render_pass extent framebuffer_result
    image_views 0 fbs h
  subst hmap
  refine ⟨rfl, by simp, ?_, ?_⟩
  · intro i h1 h2
    simp
  · intro fb hfb
    simp only [List.mem_map] at hfb
    obtain ⟨v, hv, rfl⟩ := hfb
    exact ⟨rfl, rfl, rfl, rfl⟩

/-- C8 (witness): two views over a 640x480 extent produce exactly their two
    framebuffers, in order. -/
theorem framebuffers_one_per_view_witness :
    create_framebuffers 5 ext640 allCallsSucceed
        [mkSwapchainImageView 1, mkSwapchainImageView 2] =
      Except.ok ([mkSwapchainImageView 1, mkSwapchainImageView 2].map
        (mkFramebufferInfo 5 ext640)) ∧
    ([mkSwapchainImageView 1, mkSwapchainImageView 2].map
        (mkFramebufferInfo 5 ext640)).length
      = ([mkSwapchainImageView 1, mkSwapchainImageView 2] : List ImageView).length := by
  refine ⟨rfl, ?_⟩
  exact (framebuffers_one_per_view 5 ext640 allCallsSucceed
    [mkSwapchainImageView 1, mkSwapchainImageView 2] _ rfl).2.1

/-- A successful recording run over command buffers cbs starting at position i
    records, buffer by buffer, the fixed command block on the framebuffer at
    the matching position. -/
theorem fill_commandbuffersGo_ok_trace (render_pass : Nat)
    (framebuffers : List FramebufferCreateInfo) (extent : Extent2D) (pipeline : Nat)
    (begin_result end_result : Nat → Option VkError) :
    ∀ (cbs : List Nat) (i : Nat) (evs : List CmdEvent),
      fill_commandbuffersGo render_pass framebuffers extent pipeline
          begin_result end_result i cbs = (Outcome.ok (), evs) →
      evs = (cbs.zip (framebuffers.drop i)).flatMap
        (fun q => commandBlock q.1 render_pass q.2 extent pipeline) := by
  intro cbs
  induction cbs with
  | nil =>
    intro i evs h
    simp only [fill_commandbuffersGo, Prod.mk.injEq] at h
    obtain ⟨-, h2⟩ := h
    subst h2
    simp
  | cons cb rest ih =>
    intro i evs h
    simp only [fill_commandbuffersGo] at h
    cases hb : begin_result i with
    | some e => simp [hb] at h
    | none =>
      simp only [hb] at h
      cases hfb : framebuffers[i]? with
      | none => simp [hfb] at h
      | some fb =>
        simp only [hfb] at h
        cases he : end_result i with
        | some e => simp [he] at h
        | none =>
          simp only [he] at h
          cases hrec : fill_commandbuffersGo render_pass framebuffers extent pipeline
              begin_result end_result (i + 1) rest with
          | mk out evs2 =>
            simp only [hrec, Prod.mk.injEq] at h
            obtain ⟨h1, h2⟩ := h
            subst h1
            subst h2
            have hlen : i < framebuffers.length := by
              by_contra hcon
              rw [List.getElem?_eq_none (by omega)] at hfb
              cases hfb
            have hfbeq : framebuffers[i] = fb := by
              rw [List.getElem?_eq_getElem hlen] at hfb
              exact Option.some.inj hfb
            have ihres := ih (i + 1) evs2 hrec
            rw [List.drop_eq_getElem_cons hlen, hfbeq]
            simp [List.zip_cons_cons, List.flatMap_cons, ihres]

/-- C9: command recording allocates exactly one primary command buffer per
    framebuffer from the graphics-family pool, and a successful recording run
    records into each buffer, in framebuffer order, exactly: begin recording,
    begin the render pass on that buffer's framebuffer over the full extent
    with the fixed clear color, bind the graphics pipeline, one draw call with
    vertex count 1, instance count 1 and zero offsets, end the render pass,
    end recording. -/
theorem command_recording_spec (qfi : QueueFamilyIndices) (render_pass pipeline : Nat)
    (extent : Extent2D) (framebuffers : List FramebufferCreateInfo)
    (begin_result end_result : Nat → Option VkError) (evs : List CmdEvent)
    (h : fill_commandbuffers
        (create_commandbuffers (create_command_pools qfi) framebuffers.length).2
        render_pass framebuffers extent pipeline begin_result end_result
      = (Outcome.ok (), evs)) :
    (create_commandbuffers (create_command_pools qfi) framebuffers.length).1.command_pool
        = (create_command_pools qfi).command_pool_graphics ∧
    ((create_commandbuffers (create_command_pools qfi)
        framebuffers.length).1.command_pool).queue_family_index = qfi.graphics ∧
    (create_commandbuffers (create_command_pools qfi) framebuffers.length).1.level
        = CommandBufferLevel.primary ∧
    (create_commandbuffers (create_command_pools qfi)
        framebuffers.length).1.command_buffer_count = framebuffers.length ∧
    (create_commandbuffers (create_command_pools qfi) framebuffers.length).2.length
        = framebuffers.length ∧
    evs = framebuffers.enum.flatMap
      (fun q => commandBlock q.1 render_pass q.2 extent pipeline) := by
  refine ⟨rfl, rfl, rfl, rfl, by simp [create_commandbuffers], ?_⟩
  have htr := fill_commandbuffersGo_ok_trace render_pass framebuffers extent pipeline
    begin_result end_result (List.range framebuffers.length) 0 evs h
  rw [List.enum_eq_zip_range]
  simpa using htr

/-- C9 (witness): two framebuffers give two primary buffers from the graphics
    pool and a trace of exactly the two command blocks in framebuffer order. -/
theorem command_recording_spec_witness :
    fill_commandbuffers
        (create_commandbuffers (create_command_pools qfiZero) witnessFramebuffers.length).2
        7 witnessFramebuffers ext640 9 allCallsSucceed allCallsSucceed
      = (Outcome.ok (),
         commandBlock 0 7 (mkFramebufferInfo 7 ext640 (mkSwapchainImageView 0)) ext640 9 ++
         (commandBlock 1 7 (mkFramebufferInfo 7 ext640 (mkSwapchainImageView 1)) ext640 9 ++ [])) ∧
    (commandBlock 0 7 (mkFramebufferInfo 7 ext640 (mkSwapchainImageView 0)) ext640 9 ++
     (commandBlock 1 7 (mkFramebufferInfo 7 ext640 (mkSwapchainImageView 1)) ext640 9 ++ []))
      = witnessFramebuffers.enum.flatMap (fun q => commandBlock q.1 7 q.2 ext640 9) := by
  constructor
  · rfl
  · exact (command_recording_spec qfiZero 7 9 ext640 witnessFramebuffers
      allCallsSucceed allCallsSucceed _ rfl).2.2.2.2.2

end Cinder
